import Mathlib

/-!
Shallow embedding of `src/components/DrishtiAI.tsx` (the DrishtiAI session
controller).  The component keeps four pieces of React state
(`messages`, `inputValue`, `isProcessing`, `currentProcessLog`); the mock
pipeline `simulateAgentFlow` is a straight-line async script that appends a
user message and an agent placeholder, then runs five scripted stages
(scan / extract / reason / search / verdict), each publishing a status
label, awaiting a timer, and merging a partial `AgentResponse` update into
the agent message via object spread.  We model the script as a list of
atomic `Step`s together with an interpreter `applyStep`; the state after
the whole run is the fold, and the sequence of intermediate states is the
scan.  Message ids come from `Date.now()` / `Date.now() + 1` and are
modelled as naturals (`now`, `now + 1`); `Date.now().toString()` is
injective on naturals, so equality tests on ids coincide.
-/

namespace Drishti

/-- Verdict literal union 'SAFE' | 'CAUTION' | 'AVOID' from the source. -/
inductive Verdict where
  | SAFE
  | CAUTION
  | AVOID
  deriving DecidableEq, Repr

/-- interface UserProfile from the source (all fields optional). -/
structure UserProfile where
  allergies : Option (List String) := none
  conditions : Option (List String) := none
  goals : Option (List String) := none
  deriving DecidableEq, Repr

/-- interface ProductData from the source; the TS record
NutritionFacts : Record string string is modelled as an association list. -/
structure ProductData where
  product_name : Option String := none
  company_name : Option String := none
  IngredientList : List String
  NutritionFacts : List (String × String)
  MarketingClaims : List String
  deriving DecidableEq, Repr

/-- interface AgentResponse from the source.  Optional TS fields become
`Option`; `user_query` is the only required field. -/
structure AgentResponse where
  user_query : String
  user_profile : Option UserProfile := none
  image_data : Option String := none
  product_json : Option ProductData := none
  plan : Option String := none
  search_needed : Option Bool := none
  search_queries : Option (List String) := none
  search_results : Option String := none
  final_verdict : Option Verdict := none
  reasoning : Option String := none
  next_suggestion : Option (List String) := none
  conversation_summary : Option String := none
  deriving DecidableEq, Repr

/-- A TS `Partial AgentResponse` object: each field of `AgentResponse`
wrapped in one more `Option`, where the outer `some` means the key is
present in the update object (and will overwrite on spread). -/
structure ResponseUpdate where
  user_query : Option String := none
  user_profile : Option (Option UserProfile) := none
  image_data : Option (Option String) := none
  product_json : Option (Option ProductData) := none
  plan : Option (Option String) := none
  search_needed : Option (Option Bool) := none
  search_queries : Option (Option (List String)) := none
  search_results : Option (Option String) := none
  final_verdict : Option (Option Verdict) := none
  reasoning : Option (Option String) := none
  next_suggestion : Option (Option (List String)) := none
  conversation_summary : Option (Option String) := none
  deriving DecidableEq, Repr

/-- Key-overwrite of the JS object spread: a key present in the update
replaces the existing value, an absent key keeps it. -/
def ov {α : Type} : Option α → α → α
  | some v, _ => v
  | none, e => e

/-- The object spread `\x7b ...m.agentResponse!, ...updates \x7d` used by
`updateAgentMsg` in the source: every key present in `updates` overwrites
the corresponding field of the existing response. -/
def mergeResponse (e : AgentResponse) (u : ResponseUpdate) : AgentResponse :=
  { user_query := ov u.user_query e.user_query
    user_profile := ov u.user_profile e.user_profile
    image_data := ov u.image_data e.image_data
    product_json := ov u.product_json e.product_json
    plan := ov u.plan e.plan
    search_needed := ov u.search_needed e.search_needed
    search_queries := ov u.search_queries e.search_queries
    search_results := ov u.search_results e.search_results
    final_verdict := ov u.final_verdict e.final_verdict
    reasoning := ov u.reasoning e.reasoning
    next_suggestion := ov u.next_suggestion e.next_suggestion
    conversation_summary := ov u.conversation_summary e.conversation_summary }

/-- Message.type union 'user' | 'agent'. -/
inductive MsgType where
  | user
  | agent
  deriving DecidableEq, Repr

/-- interface Message from the source.  `id` is the `Date.now()`-based
identifier modelled as a natural, `timestamp` the creation time. -/
structure Message where
  id : Nat
  type : MsgType
  content : String
  agentResponse : Option AgentResponse := none
  timestamp : Nat
  isStreaming : Option Bool := none
  deriving DecidableEq, Repr

/-- The four React state cells of the DrishtiAI component. -/
structure AppState where
  messages : List Message
  inputValue : String
  isProcessing : Bool
  currentProcessLog : String
  deriving DecidableEq, Repr

/-- The `updateAgentMsg` closure from `simulateAgentFlow`:
`setMessages(prev => prev.map(m => m.id === agentMsgId ? spread-merge : m))`.
The source dereferences `m.agentResponse!`; the matched agent message always
carries a response, so the merge is applied through `Option.map`. -/
def updateAgentMsg (agentMsgId : Nat) (updates : ResponseUpdate)
    (msgs : List Message) : List Message :=
  msgs.map fun m =>
    if m.id = agentMsgId then
      { m with agentResponse := m.agentResponse.map (fun r => mergeResponse r updates) }
    else m

/-- The final `setMessages(prev => prev.map(m => m.id === agentMsgId ?
\x7b ...m, isStreaming: false \x7d : m))` of `simulateAgentFlow`. -/
def setStreamingFalse (agentMsgId : Nat) (msgs : List Message) : List Message :=
  msgs.map fun m =>
    if m.id = agentMsgId then { m with isStreaming := some false } else m

/-- One atomic state transition performed by `simulateAgentFlow`. -/
inductive Step where
  | setProcessing (b : Bool)
  | appendMsg (m : Message)
  | setLog (label : String)
  | delayMs (ms : Nat)
  | updateAgent (agentMsgId : Nat) (u : ResponseUpdate)
  | endStreaming (agentMsgId : Nat)
  deriving DecidableEq, Repr

/-- Interpreter for one step. `delayMs` (the awaited `setTimeout`) does not
change the component state. -/
def applyStep (s : AppState) : Step → AppState
  | .setProcessing b => { s with isProcessing := b }
  | .appendMsg m => { s with messages := s.messages ++ [m] }
  | .setLog label => { s with currentProcessLog := label }
  | .delayMs _ => s
  | .updateAgent aid u => { s with messages := updateAgentMsg aid u s.messages }
  | .endStreaming aid => { s with messages := setStreamingFalse aid s.messages }

/-- The hardcoded product of the extraction stage (source lines 175-183). -/
def hardcodedProduct : ProductData :=
  { product_name := some "Crunchy Nut & Honey Bar"
    company_name := some "Nature\x27s Fuel"
    IngredientList := ["Whole Grain Oats", "Roasted Peanuts", "Almond Butter",
      "High Fructose Corn Syrup", "Soy Lecithin", "Salt"]
    NutritionFacts := [("Calories", "240"), ("Total Fat", "12g"), ("Added Sugars", "14g")]
    MarketingClaims := ["Natural Energy", "Heart Healthy"] }

/-- Partial update emitted by the extract stage. -/
def extractUpd : ResponseUpdate := { product_json := some (some hardcodedProduct) }

/-- Partial update emitted by the reason stage. -/
def reasonUpd : ResponseUpdate :=
  { plan := some (some "⚠️ DETECTED ALLERGEN: \x27Peanuts\x27. User profile indicates severe Peanut Allergy. Checking cross-contamination risks with \x27Almond Butter\x27.") }

/-- Partial update emitted by the search stage. -/
def searchUpd : ResponseUpdate :=
  { search_needed := some (some true)
    search_queries := some (some ["peanut allergy severity thresholds",
      "Nature\x27s Fuel manufacturing cross-contamination"]) }

/-- Partial update emitted by the verdict stage. -/
def verdictUpd : ResponseUpdate :=
  { final_verdict := some (some Verdict.AVOID)
    reasoning := some (some "CRITICAL ALERT: This product contains Peanuts. Your profile lists a severe Peanut Allergy. Consuming this poses a high risk of anaphylaxis. Additionally, the \x27High Fructose Corn Syrup\x27 conflicts with your goal to reduce glycemic spikes.")
    next_suggestion := some (some ["Find peanut-free alternative",
      "Report incorrect labeling", "View emergency protocol"]) }

/-- The user message appended by `simulateAgentFlow`; the JS truthiness
fallback `query || "Scanning uploaded label..."` becomes an emptiness test. -/
def userMessage (query : String) (now : Nat) : Message :=
  { id := now
    type := .user
    content := if query = "" then "Scanning uploaded label..." else query
    timestamp := now }

/-- The initial agent placeholder response (source lines 143-146). -/
def initialResponse (query : String) (imageData : Option String) : AgentResponse :=
  { user_query := query
    image_data := imageData }

/-- An agent message with a given accumulated response and streaming flag;
`agentMessage` below is the freshly appended placeholder. -/
def agentWith (_query : String) (_imageData : Option String) (now : Nat)
    (r : AgentResponse) (streaming : Bool) : Message :=
  { id := now + 1
    type := .agent
    content := ""
    agentResponse := some r
    timestamp := now
    isStreaming := some streaming }

/-- The agent placeholder appended by `simulateAgentFlow` (lines 148-155). -/
def agentMessage (query : String) (imageData : Option String) (now : Nat) : Message :=
  agentWith query imageData now (initialResponse query imageData) true

/-- `simulateAgentFlow` as the ordered list of its atomic transitions, in
source order (lines 129-218). -/
def flowSteps (query : String) (imageData : Option String) (now : Nat) : List Step :=
  [ .setProcessing true
  , .appendMsg (userMessage query now)
  , .appendMsg (agentMessage query imageData now)
  , .setLog "SCANNING IMAGE PIXELS..."
  , .delayMs 1000
  , .setLog "EXTRACTING ENTITIES VIA GEMINI 2.0..."
  , .delayMs 800
  , .updateAgent (now + 1) extractUpd
  , .setLog "CROSS-REFERENCING HEALTH PROFILE..."
  , .delayMs 1000
  , .updateAgent (now + 1) reasonUpd
  , .setLog "VERIFYING ANAPHYLAXIS PROTOCOLS..."
  , .delayMs 1200
  , .updateAgent (now + 1) searchUpd
  , .setLog "GENERATING SAFETY VERDICT..."
  , .delayMs 800
  , .updateAgent (now + 1) verdictUpd
  , .endStreaming (now + 1)
  , .setProcessing false
  , .setLog "" ]

/-- Running `simulateAgentFlow` to completion. -/
def simulateAgentFlow (query : String) (imageData : Option String) (now : Nat)
    (s : AppState) : AppState :=
  (flowSteps query imageData now).foldl applyStep s

/-- The trace of component states of one run: entry `k` is the state after
the first `k` transitions of `simulateAgentFlow`. -/
def flowTrace (query : String) (imageData : Option String) (now : Nat)
    (s : AppState) : List AppState :=
  (flowSteps query imageData now).scanl applyStep s

/-- State after only the first `k` transitions of a run: the state in which
an exception thrown at that point would leave the component (the source has
no try/catch, so the remaining statements simply never execute). -/
def flowPrefix (query : String) (imageData : Option String) (now : Nat)
    (k : Nat) (s : AppState) : AppState :=
  ((flowSteps query imageData now).take k).foldl applyStep s

/-- `handleSubmit` (source lines 220-226): guarded by
`inputValue.trim() && !isProcessing`; on acceptance it starts
`simulateAgentFlow(inputValue, null)` and clears the input. -/
def handleSubmit (now : Nat) (s : AppState) : AppState :=
  if s.inputValue.trim ≠ "" ∧ s.isProcessing = false then
    { simulateAgentFlow s.inputValue none now s with inputValue := "" }
  else s

/-- `handleFileSelect` (source lines 115-126): once the FileReader finishes,
`simulateAgentFlow("Analyze this label", base64String)` is started
unconditionally — there is no `isProcessing` check in this handler. -/
def handleFileSelect (base64String : String) (now : Nat) (s : AppState) : AppState :=
  simulateAgentFlow "Analyze this label" (some base64String) now s

/-- The initial component state (all four `useState` initial values). -/
def initState : AppState :=
  { messages := []
    inputValue := ""
    isProcessing := false
    currentProcessLog := "" }

/-- Default message used with `List.getD` when projecting traces. -/
def noMsg : Message :=
  { id := 0, type := .user, content := "", timestamp := 0 }

/-- Field preservation: if the old optional field is set, the new one keeps
its value. -/
def pres {α : Type} (old new : Option α) : Prop := old ≠ none → new = old

/-- One response extends another: every field already set keeps its value
(and the required `user_query` is unchanged). -/
def extendsResp (old new : AgentResponse) : Prop :=
  new.user_query = old.user_query ∧
  pres old.user_profile new.user_profile ∧
  pres old.image_data new.image_data ∧
  pres old.product_json new.product_json ∧
  pres old.plan new.plan ∧
  pres old.search_needed new.search_needed ∧
  pres old.search_queries new.search_queries ∧
  pres old.search_results new.search_results ∧
  pres old.final_verdict new.final_verdict ∧
  pres old.reasoning new.reasoning ∧
  pres old.next_suggestion new.next_suggestion ∧
  pres old.conversation_summary new.conversation_summary

/-- A partial only sets fields that are still unset on `e` (and never the
required `user_query`). -/
def freshFor (u : ResponseUpdate) (e : AgentResponse) : Prop :=
  u.user_query = none ∧
  (u.user_profile ≠ none → e.user_profile = none) ∧
  (u.image_data ≠ none → e.image_data = none) ∧
  (u.product_json ≠ none → e.product_json = none) ∧
  (u.plan ≠ none → e.plan = none) ∧
  (u.search_needed ≠ none → e.search_needed = none) ∧
  (u.search_queries ≠ none → e.search_queries = none) ∧
  (u.search_results ≠ none → e.search_results = none) ∧
  (u.final_verdict ≠ none → e.final_verdict = none) ∧
  (u.reasoning ≠ none → e.reasoning = none) ∧
  (u.next_suggestion ≠ none → e.next_suggestion = none) ∧
  (u.conversation_summary ≠ none → e.conversation_summary = none)

/-- Observable pipeline event: a status label, an awaited delay, or a
merged partial update.  Ids are projected away, so the event sequence of a
run is what a subscriber observes. -/
inductive FlowEvent where
  | label (s : String)
  | wait (ms : Nat)
  | update (u : ResponseUpdate)
  deriving DecidableEq, Repr

/-- The observable events of a run, in execution order. -/
def flowEvents (query : String) (imageData : Option String) (now : Nat) :
    List FlowEvent :=
  (flowSteps query imageData now).filterMap fun st =>
    match st with
    | .setLog l => some (.label l)
    | .delayMs n => some (.wait n)
    | .updateAgent _ u => some (.update u)
    | _ => none

/-- Accumulated response after the extract stage. -/
def afterExtract (query : String) (imageData : Option String) : AgentResponse :=
  mergeResponse (initialResponse query imageData) extractUpd

/-- Accumulated response after the reason stage. -/
def afterReason (query : String) (imageData : Option String) : AgentResponse :=
  mergeResponse (afterExtract query imageData) reasonUpd

/-- Accumulated response after the search stage. -/
def afterSearch (query : String) (imageData : Option String) : AgentResponse :=
  mergeResponse (afterReason query imageData) searchUpd

/-- The fully accumulated agent response of one run: the initial
placeholder merged with the four stage updates in order. -/
def finalResp (query : String) (imageData : Option String) : AgentResponse :=
  mergeResponse (afterSearch query imageData) verdictUpd

/-- Every field of `m` whose key is absent from the partial `u` keeps its
value from `e`. -/
def untouchedBy (u : ResponseUpdate) (e m : AgentResponse) : Prop :=
  (u.user_query = none → m.user_query = e.user_query) ∧
  (u.user_profile = none → m.user_profile = e.user_profile) ∧
  (u.image_data = none → m.image_data = e.image_data) ∧
  (u.product_json = none → m.product_json = e.product_json) ∧
  (u.plan = none → m.plan = e.plan) ∧
  (u.search_needed = none → m.search_needed = e.search_needed) ∧
  (u.search_queries = none → m.search_queries = e.search_queries) ∧
  (u.search_results = none → m.search_results = e.search_results) ∧
  (u.final_verdict = none → m.final_verdict = e.final_verdict) ∧
  (u.reasoning = none → m.reasoning = e.reasoning) ∧
  (u.next_suggestion = none → m.next_suggestion = e.next_suggestion) ∧
  (u.conversation_summary = none → m.conversation_summary = e.conversation_summary)

/-- Every key present in the partial `u` ends up in `m` with the partial's
value, whether or not it was already set. -/
def setsAll (u : ResponseUpdate) (m : AgentResponse) : Prop :=
  (∀ v, u.user_query = some v → m.user_query = v) ∧
  (∀ v, u.user_profile = some v → m.user_profile = v) ∧
  (∀ v, u.image_data = some v → m.image_data = v) ∧
  (∀ v, u.product_json = some v → m.product_json = v) ∧
  (∀ v, u.plan = some v → m.plan = v) ∧
  (∀ v, u.search_needed = some v → m.search_needed = v) ∧
  (∀ v, u.search_queries = some v → m.search_queries = v) ∧
  (∀ v, u.search_results = some v → m.search_results = v) ∧
  (∀ v, u.final_verdict = some v → m.final_verdict = v) ∧
  (∀ v, u.reasoning = some v → m.reasoning = v) ∧
  (∀ v, u.next_suggestion = some v → m.next_suggestion = v) ∧
  (∀ v, u.conversation_summary = some v → m.conversation_summary = v)

/-- A state in which a prior turn is still being processed. -/
def busyState : AppState :=
  { messages := []
    inputValue := ""
    isProcessing := true
    currentProcessLog := "" }

/-- An existing response with `plan` already set, and a partial that
re-sets `plan`. -/
def exSet : AgentResponse := { user_query := "is this bar ok?", plan := some "old plan" }

/-- A partial update re-emitting the already-set `plan` field. -/
def updOver : ResponseUpdate := { plan := some (some "new plan") }

/-- The agent responses visible in the message log across one run from the
initial state: entry by entry, the response of the agent message in each
trace state that has one. -/
def respTraceFull (query : String) (imageData : Option String) : List AgentResponse :=
  (flowTrace query imageData 0 initState).filterMap
    (fun st => (st.messages.getD 1 noMsg).agentResponse)

/-- State of a run from the initial component state after `i` transitions. -/
def runState (q : String) (img : Option String) (i : Nat) : AppState :=
  (flowTrace q img 0 initState).getD i initState

/-- The agent turn's response in that state. -/
def runResp (q : String) (img : Option String) (i : Nat) : Option AgentResponse :=
  ((runState q img i).messages.getD 1 noMsg).agentResponse

/-- One mutation of the message-log state cell, as performed by the source:
an append (`setMessages(prev => [...prev, m])`) or one of the two in-place
map updates. -/
inductive LogOp where
  | append (m : Message)
  | update (agentMsgId : Nat) (u : ResponseUpdate)
  | finishStreaming (agentMsgId : Nat)
  deriving DecidableEq, Repr

/-- Apply one log operation. -/
def applyLogOp (msgs : List Message) : LogOp → List Message
  | .append m => msgs ++ [m]
  | .update aid u => updateAgentMsg aid u msgs
  | .finishStreaming aid => setStreamingFalse aid msgs

/-- Apply a sequence of log operations in order. -/
def applyLogOps (msgs : List Message) : List LogOp → List Message
  | [] => msgs
  | op :: t => applyLogOps (applyLogOp msgs op) t

/-- The ids that a sequence of operations appends, in order. -/
def appendedIds : List LogOp → List Nat
  | [] => []
  | .append m :: t => m.id :: appendedIds t
  | .update _ _ :: t => appendedIds t
  | .finishStreaming _ :: t => appendedIds t

theorem pres_refl {α : Type} (a : Option α) : pres a a := fun _ => rfl

theorem pres_trans {α : Type} {a b c : Option α} (h1 : pres a b) (h2 : pres b c) :
    pres a c := by
  intro ha
  have hb := h1 ha
  rw [h2 (by rw [hb]; exact ha), hb]

theorem pres_ov {α : Type} (u : Option (Option α)) (e : Option α)
    (h : u ≠ none → e = none) : pres e (ov u e) := by
  cases u with
  | none => exact pres_refl e
  | some v => intro he; exact absurd (h (Option.some_ne_none v)) he

theorem extendsResp_refl (r : AgentResponse) : extendsResp r r :=
  ⟨rfl, pres_refl _, pres_refl _, pres_refl _, pres_refl _, pres_refl _, pres_refl _,
   pres_refl _, pres_refl _, pres_refl _, pres_refl _, pres_refl _⟩

theorem extendsResp_trans {a b c : AgentResponse}
    (h1 : extendsResp a b) (h2 : extendsResp b c) : extendsResp a c :=
  ⟨h2.1.trans h1.1,
   pres_trans h1.2.1 h2.2.1,
   pres_trans h1.2.2.1 h2.2.2.1,
   pres_trans h1.2.2.2.1 h2.2.2.2.1,
   pres_trans h1.2.2.2.2.1 h2.2.2.2.2.1,
   pres_trans h1.2.2.2.2.2.1 h2.2.2.2.2.2.1,
   pres_trans h1.2.2.2.2.2.2.1 h2.2.2.2.2.2.2.1,
   pres_trans h1.2.2.2.2.2.2.2.1 h2.2.2.2.2.2.2.2.1,
   pres_trans h1.2.2.2.2.2.2.2.2.1 h2.2.2.2.2.2.2.2.2.1,
   pres_trans h1.2.2.2.2.2.2.2.2.2.1 h2.2.2.2.2.2.2.2.2.2.1,
   pres_trans h1.2.2.2.2.2.2.2.2.2.2.1 h2.2.2.2.2.2.2.2.2.2.2.1,
   pres_trans h1.2.2.2.2.2.2.2.2.2.2.2 h2.2.2.2.2.2.2.2.2.2.2.2⟩

theorem mergeResponse_extends {e : AgentResponse} {u : ResponseUpdate}
    (h : freshFor u e) : extendsResp e (mergeResponse e u) :=
  ⟨by show ov u.user_query e.user_query = e.user_query; rw [h.1]; rfl,
   pres_ov u.user_profile e.user_profile h.2.1,
   pres_ov u.image_data e.image_data h.2.2.1,
   pres_ov u.product_json e.product_json h.2.2.2.1,
   pres_ov u.plan e.plan h.2.2.2.2.1,
   pres_ov u.search_needed e.search_needed h.2.2.2.2.2.1,
   pres_ov u.search_queries e.search_queries h.2.2.2.2.2.2.1,
   pres_ov u.search_results e.search_results h.2.2.2.2.2.2.2.1,
   pres_ov u.final_verdict e.final_verdict h.2.2.2.2.2.2.2.2.1,
   pres_ov u.reasoning e.reasoning h.2.2.2.2.2.2.2.2.2.1,
   pres_ov u.next_suggestion e.next_suggestion h.2.2.2.2.2.2.2.2.2.2.1,
   pres_ov u.conversation_summary e.conversation_summary h.2.2.2.2.2.2.2.2.2.2.2⟩

theorem mergeResponse_empty (r : AgentResponse) : mergeResponse r {} = r := rfl

-- map-id preservation lemmas

theorem updateAgentMsg_map_id (aid : Nat) (u : ResponseUpdate) (l : List Message) :
    (updateAgentMsg aid u l).map (fun m => m.id) = l.map (fun m => m.id) := by
  induction l with
  | nil => rfl
  | cons m t ih =>
      simp only [updateAgentMsg, List.map_cons] at *
      refine congrArg₂ _ ?_ ih
      by_cases h : m.id = aid <;> simp [h]

theorem setStreamingFalse_map_id (aid : Nat) (l : List Message) :
    (setStreamingFalse aid l).map (fun m => m.id) = l.map (fun m => m.id) := by
  induction l with
  | nil => rfl
  | cons m t ih =>
      simp only [setStreamingFalse, List.map_cons] at *
      refine congrArg₂ _ ?_ ih
      by_cases h : m.id = aid <;> simp [h]

-- frame lemmas: updates leave a prefix of fresh-id messages untouched

theorem updateAgentMsg_append (aid : Nat) (u : ResponseUpdate) (l₁ l₂ : List Message)
    (h : ∀ m ∈ l₁, m.id ≠ aid) :
    updateAgentMsg aid u (l₁ ++ l₂) = l₁ ++ updateAgentMsg aid u l₂ := by
  unfold updateAgentMsg
  rw [List.map_append]
  congr 1
  induction l₁ with
  | nil => rfl
  | cons m t ih =>
      simp only [List.map_cons]
      rw [if_neg (h m (by simp)), ih (fun x hx => h x (by simp [hx]))]

theorem setStreamingFalse_append (aid : Nat) (l₁ l₂ : List Message)
    (h : ∀ m ∈ l₁, m.id ≠ aid) :
    setStreamingFalse aid (l₁ ++ l₂) = l₁ ++ setStreamingFalse aid l₂ := by
  unfold setStreamingFalse
  rw [List.map_append]
  congr 1
  induction l₁ with
  | nil => rfl
  | cons m t ih =>
      simp only [List.map_cons]
      rw [if_neg (h m (by simp)), ih (fun x hx => h x (by simp [hx]))]

theorem updateAgentMsg_pair (q : String) (img : Option String) (now : Nat)
    (u : ResponseUpdate) (r : AgentResponse) (b : Bool) :
    updateAgentMsg (now + 1) u [userMessage q now, agentWith q img now r b]
      = [userMessage q now, agentWith q img now (mergeResponse r u) b] := by
  unfold updateAgentMsg
  simp only [List.map_cons, List.map_nil]
  rw [if_neg (show ¬((userMessage q now).id = now + 1) by simp [userMessage]),
    if_pos (show (agentWith q img now r b).id = now + 1 from rfl)]
  rfl

theorem setStreamingFalse_pair (q : String) (img : Option String) (now : Nat)
    (r : AgentResponse) (b : Bool) :
    setStreamingFalse (now + 1) [userMessage q now, agentWith q img now r b]
      = [userMessage q now, agentWith q img now r false] := by
  unfold setStreamingFalse
  simp only [List.map_cons, List.map_nil]
  rw [if_neg (show ¬((userMessage q now).id = now + 1) by simp [userMessage]),
    if_pos (show (agentWith q img now r b).id = now + 1 from rfl)]
  rfl

theorem handleSubmit_busy (now : Nat) (s : AppState) (h : s.isProcessing = true) :
    handleSubmit now s = s := by
  unfold handleSubmit
  rw [if_neg]
  intro hc
  rw [h] at hc
  exact absurd hc.2 (by decide)

theorem simulateAgentFlow_len (q : String) (img : Option String) (now : Nat)
    (s : AppState) :
    (simulateAgentFlow q img now s).messages.length = s.messages.length + 2 := by
  have key : ∀ (aid : Nat) (u : ResponseUpdate) (l : List Message),
      (updateAgentMsg aid u l).length = l.length := fun aid u l => List.length_map _ _
  have key2 : ∀ (aid : Nat) (l : List Message),
      (setStreamingFalse aid l).length = l.length := fun aid l => List.length_map _ _
  simp [simulateAgentFlow, flowSteps, applyStep, List.foldl, key, key2]

theorem ov_absent {α : Type} (e : α) : ov none e = e := rfl

theorem ov_present {α : Type} (v : α) (e : α) : ov (some v) e = v := rfl

/-- C1 (amended): while `isProcessing` is true, `handleSubmit` is silently
ignored — the state (and in particular the message log) is unchanged, though
no `Busy` error value exists anywhere in the code; the image-upload handler
`handleFileSelect`, by contrast, performs no `isProcessing` check and always
starts a pipeline run that appends a user and an agent turn. -/
theorem busy_gating : ∀ (now : Nat) (s : AppState), s.isProcessing = true →
    handleSubmit now s = s ∧
    ∀ b : String, (handleFileSelect b now s).messages.length = s.messages.length + 2 :=
  fun now s h =>
    ⟨handleSubmit_busy now s h, fun _ => simulateAgentFlow_len _ _ _ _⟩

/-- Witness for `busy_gating` at a concrete busy state. -/
theorem busy_gating_witness :
    handleSubmit 3 busyState = busyState ∧
    (handleFileSelect "payload" 3 busyState).messages.length
      = busyState.messages.length + 2 := by
  have h := busy_gating 3 busyState rfl
  exact ⟨h.1, h.2 "payload"⟩

/-- C1 is false as stated: with a prior turn in flight
(`isProcessing = true`), the image-upload entry point still starts a
pipeline run and appends two new turns to the log. -/
theorem busy_gating_cex :
    busyState.isProcessing = true ∧
    (handleFileSelect "label.png" 0 busyState).messages.length
      = busyState.messages.length + 2 ∧
    (handleFileSelect "label.png" 0 busyState).messages.length
      ≠ busyState.messages.length := by
  refine ⟨rfl, rfl, ?_⟩
  decide

/-- C5 (amended): `merge(existing, partial)` never fails — there is no
`FieldAlreadySet` error path: every key present in the partial overwrites
the corresponding field (last write wins, even when already set), keys
absent from the partial leave the field untouched, and when the partial
only sets fields that are unset on `existing` the result is the union
extending `existing`. -/
theorem merge_semantics :
    ∀ (e : AgentResponse) (u : ResponseUpdate),
      untouchedBy u e (mergeResponse e u) ∧
      setsAll u (mergeResponse e u) ∧
      (freshFor u e → extendsResp e (mergeResponse e u)) := by
  intro e u
  refine ⟨⟨?_, ?_, ?_, ?_, ?_, ?_, ?_, ?_, ?_, ?_, ?_, ?_⟩,
    ⟨?_, ?_, ?_, ?_, ?_, ?_, ?_, ?_, ?_, ?_, ?_, ?_⟩,
    fun h => mergeResponse_extends h⟩
  all_goals intro
  case _ h => show ov u.user_query _ = _; rw [h, ov_absent]
  case _ h => show ov u.user_profile _ = _; rw [h, ov_absent]
  case _ h => show ov u.image_data _ = _; rw [h, ov_absent]
  case _ h => show ov u.product_json _ = _; rw [h, ov_absent]
  case _ h => show ov u.plan _ = _; rw [h, ov_absent]
  case _ h => show ov u.search_needed _ = _; rw [h, ov_absent]
  case _ h => show ov u.search_queries _ = _; rw [h, ov_absent]
  case _ h => show ov u.search_results _ = _; rw [h, ov_absent]
  case _ h => show ov u.final_verdict _ = _; rw [h, ov_absent]
  case _ h => show ov u.reasoning _ = _; rw [h, ov_absent]
  case _ h => show ov u.next_suggestion _ = _; rw [h, ov_absent]
  case _ h => show ov u.conversation_summary _ = _; rw [h, ov_absent]
  case _ v => intro h; show ov u.user_query _ = _; rw [h, ov_present]
  case _ v => intro h; show ov u.user_profile _ = _; rw [h, ov_present]
  case _ v => intro h; show ov u.image_data _ = _; rw [h, ov_present]
  case _ v => intro h; show ov u.product_json _ = _; rw [h, ov_present]
  case _ v => intro h; show ov u.plan _ = _; rw [h, ov_present]
  case _ v => intro h; show ov u.search_needed _ = _; rw [h, ov_present]
  case _ v => intro h; show ov u.search_queries _ = _; rw [h, ov_present]
  case _ v => intro h; show ov u.search_results _ = _; rw [h, ov_present]
  case _ v => intro h; show ov u.final_verdict _ = _; rw [h, ov_present]
  case _ v => intro h; show ov u.reasoning _ = _; rw [h, ov_present]
  case _ v => intro h; show ov u.next_suggestion _ = _; rw [h, ov_present]
  case _ v => intro h; show ov u.conversation_summary _ = _; rw [h, ov_present]

/-- C5 is false as stated: merging a partial whose `plan` key is already
set on the existing response does not fail — `mergeResponse` is a total
function with no error result, and it silently overwrites the field. -/
theorem merge_semantics_cex :
    exSet.plan = some "old plan" ∧
    updOver.plan = some (some "new plan") ∧
    (mergeResponse exSet updOver).plan = some "new plan" ∧
    (mergeResponse exSet updOver).plan ≠ exSet.plan := by
  refine ⟨rfl, rfl, rfl, ?_⟩
  decide

/-- Witness for `merge_semantics`: the union case at concrete arguments. -/
theorem merge_semantics_witness :
    extendsResp exSet (mergeResponse exSet ({} : ResponseUpdate)) :=
  (merge_semantics exSet {}).2.2
    ⟨rfl, fun h => absurd rfl h, fun h => absurd rfl h, fun h => absurd rfl h,
     fun h => absurd rfl h, fun h => absurd rfl h, fun h => absurd rfl h,
     fun h => absurd rfl h, fun h => absurd rfl h, fun h => absurd rfl h,
     fun h => absurd rfl h, fun h => absurd rfl h⟩

/-- C10: the pipeline output is input-independent.  The run's accumulated
response has the same hardcoded product data, plan, search fields, verdict
(always AVOID), reasoning and suggestions for any two inputs; only the
echoed `user_query` and `image_data` depend on the submission, and the
observable event sequence is identical for all inputs. -/
theorem input_independence :
    ∀ (q₁ q₂ : String) (i₁ i₂ : Option String),
      ((simulateAgentFlow q₁ i₁ 0 initState).messages.getD 1 noMsg).agentResponse
        = some (finalResp q₁ i₁) ∧
      (finalResp q₁ i₁).product_json = (finalResp q₂ i₂).product_json ∧
      (finalResp q₁ i₁).plan = (finalResp q₂ i₂).plan ∧
      (finalResp q₁ i₁).search_needed = (finalResp q₂ i₂).search_needed ∧
      (finalResp q₁ i₁).search_queries = (finalResp q₂ i₂).search_queries ∧
      (finalResp q₁ i₁).search_results = (finalResp q₂ i₂).search_results ∧
      (finalResp q₁ i₁).user_profile = (finalResp q₂ i₂).user_profile ∧
      (finalResp q₁ i₁).conversation_summary = (finalResp q₂ i₂).conversation_summary ∧
      (finalResp q₁ i₁).final_verdict = some Verdict.AVOID ∧
      (finalResp q₂ i₂).final_verdict = some Verdict.AVOID ∧
      (finalResp q₁ i₁).reasoning = (finalResp q₂ i₂).reasoning ∧
      (finalResp q₁ i₁).next_suggestion = (finalResp q₂ i₂).next_suggestion ∧
      (finalResp q₁ i₁).user_query = q₁ ∧
      (finalResp q₁ i₁).image_data = i₁ ∧
      (∀ n₁ n₂ : Nat, flowEvents q₁ i₁ n₁ = flowEvents q₂ i₂ n₂) :=
  fun _ _ _ _ =>
    ⟨rfl, rfl, rfl, rfl, rfl, rfl, rfl, rfl, rfl, rfl, rfl, rfl, rfl, rfl,
     fun _ _ => rfl⟩

theorem respTraceFull_eq (q : String) (img : Option String) :
    respTraceFull q img =
      [initialResponse q img, initialResponse q img, initialResponse q img,
       initialResponse q img, initialResponse q img,
       afterExtract q img, afterExtract q img, afterExtract q img,
       afterReason q img, afterReason q img, afterReason q img,
       afterSearch q img, afterSearch q img, afterSearch q img,
       finalResp q img, finalResp q img, finalResp q img, finalResp q img] := rfl

theorem freshFor_extract (q : String) (img : Option String) :
    freshFor extractUpd (initialResponse q img) :=
  ⟨rfl, fun h => absurd rfl h, fun h => absurd rfl h, fun _ => rfl,
   fun h => absurd rfl h, fun h => absurd rfl h, fun h => absurd rfl h,
   fun h => absurd rfl h, fun h => absurd rfl h, fun h => absurd rfl h,
   fun h => absurd rfl h, fun h => absurd rfl h⟩

theorem freshFor_reason (q : String) (img : Option String) :
    freshFor reasonUpd (afterExtract q img) :=
  ⟨rfl, fun h => absurd rfl h, fun h => absurd rfl h, fun h => absurd rfl h,
   fun _ => rfl, fun h => absurd rfl h, fun h => absurd rfl h,
   fun h => absurd rfl h, fun h => absurd rfl h, fun h => absurd rfl h,
   fun h => absurd rfl h, fun h => absurd rfl h⟩

theorem freshFor_search (q : String) (img : Option String) :
    freshFor searchUpd (afterReason q img) :=
  ⟨rfl, fun h => absurd rfl h, fun h => absurd rfl h, fun h => absurd rfl h,
   fun h => absurd rfl h, fun _ => rfl, fun _ => rfl,
   fun h => absurd rfl h, fun h => absurd rfl h, fun h => absurd rfl h,
   fun h => absurd rfl h, fun h => absurd rfl h⟩

theorem freshFor_verdict (q : String) (img : Option String) :
    freshFor verdictUpd (afterSearch q img) :=
  ⟨rfl, fun h => absurd rfl h, fun h => absurd rfl h, fun h => absurd rfl h,
   fun h => absurd rfl h, fun h => absurd rfl h, fun h => absurd rfl h,
   fun h => absurd rfl h, fun _ => rfl, fun _ => rfl,
   fun _ => rfl, fun h => absurd rfl h⟩

/-- C6: accumulation within one run is additive.  Merging an empty partial
is a no-op, and along the whole visible response trace of a run every field
that is set at some point keeps exactly that value in every later entry
(nothing is cleared or overwritten). -/
theorem additive_accumulation :
    (∀ r : AgentResponse, mergeResponse r {} = r) ∧
    ∀ (q : String) (img : Option String),
      List.Pairwise extendsResp (respTraceFull q img) := by
  refine ⟨fun r => rfl, fun q img => ?_⟩
  rw [respTraceFull_eq]
  have tr : IsTrans AgentResponse extendsResp := ⟨fun _ _ _ h1 h2 => extendsResp_trans h1 h2⟩
  refine (@List.chain'_iff_pairwise _ _ tr _).mp ?_
  simp only [List.chain'_cons, List.chain'_singleton, and_true]
  exact ⟨extendsResp_refl _, extendsResp_refl _, extendsResp_refl _, extendsResp_refl _,
    mergeResponse_extends (freshFor_extract q img),
    extendsResp_refl _, extendsResp_refl _,
    mergeResponse_extends (freshFor_reason q img),
    extendsResp_refl _, extendsResp_refl _,
    mergeResponse_extends (freshFor_search q img),
    extendsResp_refl _, extendsResp_refl _,
    mergeResponse_extends (freshFor_verdict q img),
    extendsResp_refl _, extendsResp_refl _, extendsResp_refl _⟩

/-- Witness for `additive_accumulation` at a concrete run. -/
theorem additive_accumulation_witness :
    List.Pairwise extendsResp (respTraceFull "Is X safe?" (some "img")) :=
  additive_accumulation.2 "Is X safe?" (some "img")

/-- C7: along a run the agent turn's `isStreaming` flag is `true` from its
creation (trace state 3) through every stage update up to and including the
verdict merge (state 17), and `false` from the step right after the
terminal stage (state 18) to the end of the run — it flips exactly once. -/
theorem inflight_flip :
    ∀ (q : String) (img : Option String),
      (∀ i : Nat, 3 ≤ i → i ≤ 17 →
        (((flowTrace q img 0 initState).getD i initState).messages.getD 1 noMsg).isStreaming
          = some true) ∧
      (∀ i : Nat, 18 ≤ i → i ≤ 20 →
        (((flowTrace q img 0 initState).getD i initState).messages.getD 1 noMsg).isStreaming
          = some false) := by
  intro q img
  constructor <;> intro i h1 h2 <;> interval_cases i <;> rfl

/-- Witness for `inflight_flip` at a concrete run and concrete indices. -/
theorem inflight_flip_witness :
    (((flowTrace "w" none 0 initState).getD 5 initState).messages.getD 1 noMsg).isStreaming
      = some true ∧
    (((flowTrace "w" none 0 initState).getD 19 initState).messages.getD 1 noMsg).isStreaming
      = some false :=
  ⟨(inflight_flip "w" none).1 5 (by decide) (by decide),
   (inflight_flip "w" none).2 19 (by decide) (by decide)⟩

/-- C8: for a submission carrying an image payload, the agent turn's
response has `image_data` equal to the supplied payload in every trace
state from the turn's creation to the end of the run — no stage update
modifies it. -/
theorem image_frame :
    ∀ (q payload : String) (i : Nat), 3 ≤ i → i ≤ 20 →
      ((((flowTrace q (some payload) 0 initState).getD i initState).messages.getD 1
        noMsg).agentResponse).map (fun r => r.image_data) = some (some payload) := by
  intro q payload i h1 h2
  interval_cases i <;> rfl

/-- Witness for `image_frame` at the final state of a concrete run. -/
theorem image_frame_witness :
    ((((flowTrace "scan" (some "imgbytes") 0 initState).getD 20 initState).messages.getD 1
      noMsg).agentResponse).map (fun r => r.image_data) = some (some "imgbytes") :=
  image_frame "scan" "imgbytes" 20 (by decide) (by decide)

/-- C2: the run has exactly the five stages in order.  The observable event
sequence is scan label/delay (no update), then label/delay/update for
extract, reason, search and verdict; in the state trace each stage's label
is visible before its delay (the delay state equals the label state), each
update is merged only after the previous stage's update, and each stage
sets exactly its own fields: extract the product data, reason the plan,
search the search flag and queries together, verdict the verdict,
reasoning and follow-ups. -/
theorem stage_sequence :
    ∀ (q : String) (img : Option String),
      (∀ now : Nat, flowEvents q img now =
        [.label "SCANNING IMAGE PIXELS...", .wait 1000,
         .label "EXTRACTING ENTITIES VIA GEMINI 2.0...", .wait 800, .update extractUpd,
         .label "CROSS-REFERENCING HEALTH PROFILE...", .wait 1000, .update reasonUpd,
         .label "VERIFYING ANAPHYLAXIS PROTOCOLS...", .wait 1200, .update searchUpd,
         .label "GENERATING SAFETY VERDICT...", .wait 800, .update verdictUpd,
         .label ""]) ∧
      (runState q img 4).currentProcessLog = "SCANNING IMAGE PIXELS..." ∧
      runState q img 5 = runState q img 4 ∧
      runResp q img 5 = some (initialResponse q img) ∧
      (runState q img 6).currentProcessLog = "EXTRACTING ENTITIES VIA GEMINI 2.0..." ∧
      runState q img 7 = runState q img 6 ∧
      runResp q img 7 = some (initialResponse q img) ∧
      runResp q img 8 = some (afterExtract q img) ∧
      (afterExtract q img).product_json = some hardcodedProduct ∧
      (afterExtract q img).plan = none ∧
      (afterExtract q img).search_needed = none ∧
      (afterExtract q img).search_queries = none ∧
      (afterExtract q img).final_verdict = none ∧
      (afterExtract q img).reasoning = none ∧
      (afterExtract q img).next_suggestion = none ∧
      (runState q img 9).currentProcessLog = "CROSS-REFERENCING HEALTH PROFILE..." ∧
      runState q img 10 = runState q img 9 ∧
      runResp q img 10 = some (afterExtract q img) ∧
      runResp q img 11 = some (afterReason q img) ∧
      (afterReason q img).plan = some "⚠️ DETECTED ALLERGEN: \x27Peanuts\x27. User profile indicates severe Peanut Allergy. Checking cross-contamination risks with \x27Almond Butter\x27." ∧
      (afterReason q img).search_needed = none ∧
      (afterReason q img).search_queries = none ∧
      (afterReason q img).final_verdict = none ∧
      (runState q img 12).currentProcessLog = "VERIFYING ANAPHYLAXIS PROTOCOLS..." ∧
      runState q img 13 = runState q img 12 ∧
      runResp q img 13 = some (afterReason q img) ∧
      runResp q img 14 = some (afterSearch q img) ∧
      (afterSearch q img).search_needed = some true ∧
      (afterSearch q img).search_queries = some ["peanut allergy severity thresholds",
        "Nature\x27s Fuel manufacturing cross-contamination"] ∧
      (afterSearch q img).final_verdict = none ∧
      (afterSearch q img).reasoning = none ∧
      (afterSearch q img).next_suggestion = none ∧
      (runState q img 15).currentProcessLog = "GENERATING SAFETY VERDICT..." ∧
      runState q img 16 = runState q img 15 ∧
      runResp q img 16 = some (afterSearch q img) ∧
      runResp q img 17 = some (finalResp q img) ∧
      (finalResp q img).final_verdict = some Verdict.AVOID ∧
      (finalResp q img).reasoning = some "CRITICAL ALERT: This product contains Peanuts. Your profile lists a severe Peanut Allergy. Consuming this poses a high risk of anaphylaxis. Additionally, the \x27High Fructose Corn Syrup\x27 conflicts with your goal to reduce glycemic spikes." ∧
      (finalResp q img).next_suggestion = some ["Find peanut-free alternative",
        "Report incorrect labeling", "View emergency protocol"] :=
  fun _ _ =>
    ⟨fun _ => rfl, rfl, rfl, rfl, rfl, rfl, rfl, rfl, rfl, rfl, rfl, rfl, rfl,
     rfl, rfl, rfl, rfl, rfl, rfl, rfl, rfl, rfl, rfl, rfl, rfl, rfl, rfl, rfl,
     rfl, rfl, rfl, rfl, rfl, rfl, rfl, rfl, rfl, rfl, rfl⟩

/-- C9: for any interleaving of appends and in-place updates, the message
log lists the turns in append order: the id sequence of the resulting log
is the original id sequence followed by the appended ids — appends only add
at the end, and updates never reorder, insert or remove turns. -/
theorem log_order :
    ∀ (ops : List LogOp) (msgs : List Message),
      (applyLogOps msgs ops).map (fun m => m.id)
        = msgs.map (fun m => m.id) ++ appendedIds ops := by
  intro ops
  induction ops with
  | nil => intro msgs; simp [applyLogOps, appendedIds]
  | cons op t ih =>
      intro msgs
      cases op with
      | append m =>
          rw [show applyLogOps msgs (LogOp.append m :: t)
              = applyLogOps (msgs ++ [m]) t from rfl, ih]
          simp [appendedIds]
      | update aid u =>
          rw [show applyLogOps msgs (LogOp.update aid u :: t)
              = applyLogOps (updateAgentMsg aid u msgs) t from rfl, ih,
            updateAgentMsg_map_id]
          rfl
      | finishStreaming aid =>
          rw [show applyLogOps msgs (LogOp.finishStreaming aid :: t)
              = applyLogOps (setStreamingFalse aid msgs) t from rfl, ih,
            setStreamingFalse_map_id]
          rfl

/-- C4 (amended): if a stage raises — modelled as the run stopping after a
prefix of its transitions, since the source has no try/catch — then no
further stage executes and every already-merged field remains (no
rollback); but no cleanup happens either: `isProcessing` stays true, the
turn keeps `isStreaming = true`, no failure value is surfaced anywhere, and
a subsequent text submission is silently ignored instead of succeeding. -/
theorem stage_failure_behavior :
    ∀ (q : String) (img : Option String) (k n : Nat), 1 ≤ k → k ≤ 17 →
      (flowPrefix q img 0 k initState).isProcessing = true ∧
      handleSubmit n { flowPrefix q img 0 k initState with inputValue := "try again" }
        = { flowPrefix q img 0 k initState with inputValue := "try again" } ∧
      (3 ≤ k →
        ((flowPrefix q img 0 k initState).messages.getD 1 noMsg).isStreaming = some true) ∧
      (8 ≤ k →
        (((flowPrefix q img 0 k initState).messages.getD 1 noMsg).agentResponse).map
          (fun r => r.product_json) = some (some hardcodedProduct)) := by
  intro q img k n h1 h2
  have hbusy : (flowPrefix q img 0 k initState).isProcessing = true := by
    interval_cases k <;> rfl
  refine ⟨hbusy, handleSubmit_busy n _ hbusy, ?_, ?_⟩
  · intro h3
    interval_cases k <;> rfl
  · intro h3
    interval_cases k <;> rfl

/-- Witness for `stage_failure_behavior`: a failure right after the reason
stage's status label was shown. -/
theorem stage_failure_behavior_witness :
    (flowPrefix "Is X safe?" none 0 9 initState).isProcessing = true ∧
    handleSubmit 4 { flowPrefix "Is X safe?" none 0 9 initState with inputValue := "try again" }
      = { flowPrefix "Is X safe?" none 0 9 initState with inputValue := "try again" } ∧
    ((flowPrefix "Is X safe?" none 0 9 initState).messages.getD 1 noMsg).isStreaming
      = some true ∧
    (((flowPrefix "Is X safe?" none 0 9 initState).messages.getD 1 noMsg).agentResponse).map
      (fun r => r.product_json) = some (some hardcodedProduct) :=
  have h := stage_failure_behavior "Is X safe?" none 9 4 (by decide) (by decide)
  ⟨h.1, h.2.1, h.2.2.1 (by decide), h.2.2.2 (by decide)⟩

/-- C4 is false as stated: when the extract stage raises (run stopped after
transition 7, before extract's update merges), the turn is NOT marked
`inFlight = false`, the session does NOT return to Idle, and a subsequent
submit is a no-op instead of succeeding — no `StageFailure` value exists in
the code at all. -/
theorem stage_failure_cex :
    (flowPrefix "Is X safe?" none 0 7 initState).isProcessing = true ∧
    ((flowPrefix "Is X safe?" none 0 7 initState).messages.getD 1 noMsg).isStreaming
      = some true ∧
    handleSubmit 50 { flowPrefix "Is X safe?" none 0 7 initState with inputValue := "retry" }
      = { flowPrefix "Is X safe?" none 0 7 initState with inputValue := "retry" } := by
  refine ⟨rfl, rfl, ?_⟩
  exact handleSubmit_busy 50 _ rfl

/-- C3: submitting a non-empty query with no image (from any state whose
log does not already use the new agent id) appends a user turn whose text
is exactly the query, immediately followed by the agent placeholder turn
with `isStreaming = true`; and when the run completes, that agent turn has
`isStreaming = false` and a verdict that is one of SAFE, CAUTION, AVOID
(concretely AVOID). -/
theorem scenario_text_submit :
    ∀ (q : String) (now : Nat) (s : AppState), q ≠ "" →
      (∀ m ∈ s.messages, m.id ≠ now + 1) →
      ((flowTrace q none now s).getD 3 s).messages
          = s.messages ++ [userMessage q now, agentMessage q none now] ∧
      (userMessage q now).type = MsgType.user ∧
      (userMessage q now).content = q ∧
      (agentMessage q none now).type = MsgType.agent ∧
      (agentMessage q none now).isStreaming = some true ∧
      (simulateAgentFlow q none now s).messages
          = s.messages ++ [userMessage q now, agentWith q none now (finalResp q none) false] ∧
      (agentWith q none now (finalResp q none) false).isStreaming = some false ∧
      (finalResp q none).final_verdict = some Verdict.AVOID ∧
      Verdict.AVOID ∈ [Verdict.SAFE, Verdict.CAUTION, Verdict.AVOID] := by
  intro q now s hq hfresh
  refine ⟨?_, rfl, ?_, rfl, rfl, ?_, rfl, rfl, by decide⟩
  · show (s.messages ++ [userMessage q now]) ++ [agentMessage q none now]
        = s.messages ++ [userMessage q now, agentMessage q none now]
    rw [List.append_assoc]
    rfl
  · show (if q = "" then "Scanning uploaded label..." else q) = q
    rw [if_neg hq]
  · show setStreamingFalse (now + 1) (updateAgentMsg (now + 1) verdictUpd
        (updateAgentMsg (now + 1) searchUpd (updateAgentMsg (now + 1) reasonUpd
        (updateAgentMsg (now + 1) extractUpd ((s.messages ++ [userMessage q now])
          ++ [agentWith q none now (initialResponse q none) true])))))
        = s.messages ++ [userMessage q now, agentWith q none now (finalResp q none) false]
    rw [List.append_assoc, List.singleton_append]
    rw [updateAgentMsg_append _ _ _ _ hfresh, updateAgentMsg_pair]
    rw [updateAgentMsg_append _ _ _ _ hfresh, updateAgentMsg_pair]
    rw [updateAgentMsg_append _ _ _ _ hfresh, updateAgentMsg_pair]
    rw [updateAgentMsg_append _ _ _ _ hfresh, updateAgentMsg_pair]
    rw [setStreamingFalse_append _ _ _ hfresh, setStreamingFalse_pair]
    rfl

/-- Witness for `scenario_text_submit` at a concrete submission. -/
theorem scenario_text_submit_witness :
    (simulateAgentFlow "Is X safe?" none 5 initState).messages
      = initState.messages ++ [userMessage "Is X safe?" 5,
          agentWith "Is X safe?" none 5 (finalResp "Is X safe?" none) false] ∧
    (finalResp "Is X safe?" none).final_verdict = some Verdict.AVOID :=
  have h := scenario_text_submit "Is X safe?" 5 initState (by decide)
    (by intro m hm; exact absurd hm (List.not_mem_nil m))
  ⟨h.2.2.2.2.2.1, h.2.2.2.2.2.2.2.1⟩

end Drishti
